import Mathlib

/-!
# Verification of the per-conversation summarization bot (`father.py`)

Shallow embedding of the core of `father.py`:

* `storeMessage` models the handler `store_message` (lines 115–144): the
  guard on empty text, lazy creation of the per-chat list, the append, and
  the eviction (time-window filter with cutoff `update.message.date -
  timedelta(hours=1)`, then the Python slice `[-100:]`).
* `summarize` models the handler `summarize` (lines 42–113): the key-absence
  check, the empty-list check, the prompt rendering
  `" ".join(f"[@{username}] {text}")`, the `len < 10` gate, the single
  oracle call, the `.strip()` of the returned text, and the
  `f"Summary:\n{summary}"` reply, with the `try/except` mapped to the two
  branches of the oracle's `Except` result.

Timestamps are modelled as `Int` seconds (so `timedelta(hours=1)` is 3600
and `datetime` comparison is integer comparison); chat ids as `Int`; the
module-level dict `message_history` as a function `Int → Option (List Msg)`
(`none` ≙ key absent, mirroring `chat_id not in message_history`).
The generation oracle is a parameter `String → Except String String`
(`.error` ≙ the OpenAI call raising an exception).  `summarize` returns the
outcome together with the number of oracle invocations made on that path.
-/

/-- A stored message: the dict `{'text', 'timestamp', 'username'}` built at
`father.py` lines 131–135. -/
structure Msg where
  text : String
  timestamp : Int
  username : String
deriving DecidableEq, Repr

/-- The module-level `message_history` dict: chat id to retained sequence;
`none` models key absence. -/
def Store : Type := Int → Option (List Msg)

/-- Seconds in `timedelta(hours=1)` (line 139). -/
def RETENTION_WINDOW : Int := 3600

/-- The count cap in the slice `[-100:]` (line 143). -/
def MAX_RETAINED : Nat := 100

/-- The Python slice `l[-n:]`: the last `n` elements (all of `l` when it is
shorter). -/
def takeLast (n : Nat) (l : List Msg) : List Msg :=
  l.drop (l.length - n)

/-- Model of `store_message` (lines 115–144): skip empty text (line 120), append the
message (lines 124–135), then evict: keep timestamps `≥ date − 1h`
(lines 139–142) and take the last 100 (line 143). -/
def storeMessage (s : Store) (cid : Int) (m : Msg) : Store :=
  if m.text = "" then s
  else
    let prev := (s cid).getD []
    let appended := prev ++ [m]
    let cutoff := m.timestamp - RETENTION_WINDOW
    let retained := takeLast MAX_RETAINED
      (appended.filter (fun x => cutoff ≤ x.timestamp))
    fun c => if c = cid then some retained else s c

/-- Per-message rendering `f"[@{msg['username']}] {msg['text']}"` (line 74). -/
def renderMsg (m : Msg) : String :=
  "[@" ++ m.username ++ "] " ++ m.text

/-- The prompt body `" ".join(...)` of line 74. -/
def buildPrompt (msgs : List Msg) : String :=
  String.intercalate " " (msgs.map renderMsg)

/-- The minimum-content threshold of line 77. -/
def MIN_TEXT_LENGTH : Nat := 10

/-- Python's `str.strip()` on the character sequence: drop whitespace from
both ends (line 99's `.strip()`). -/
def stripStr (s : String) : String :=
  ⟨(((s.data.dropWhile Char.isWhitespace).reverse.dropWhile
      Char.isWhitespace).reverse)⟩

/-- The user-visible outcome of one `/summarize` trigger. -/
inductive SummaryOutcome where
  | noHistory
  | emptyAfterFilter
  | insufficientContent
  | summarized (text : String)
  | generationFailed
deriving DecidableEq, Repr

/-- The reply text sent for each outcome (lines 52, 67, 82, 104, 110). -/
def replyText : SummaryOutcome → String
  | .noHistory => "No messages stored for this chat yet."
  | .emptyAfterFilter => "No messages found in chat."
  | .insufficientContent => "Not enough text to summarize."
  | .summarized t => t
  | .generationFailed => "Failed to summarize messages. Please try again later."

/-- Model of `summarize` (lines 42–113).  Returns the outcome and how many times the
generation oracle was called on that control path.  The `try/except` around
the OpenAI call (lines 88–113) is modelled by matching on the oracle's
`Except` value: both constructors produce an outcome, so no fault escapes. -/
def summarize (s : Store) (cid : Int)
    (oracle : String → Except String String) : SummaryOutcome × Nat :=
  match s cid with
  | none => (.noHistory, 0)
  | some relevant =>
    if relevant.isEmpty then (.emptyAfterFilter, 0)
    else
      let text := buildPrompt relevant
      if text.length < MIN_TEXT_LENGTH then (.insufficientContent, 0)
      else
        match oracle text with
        | .ok raw => (.summarized ("Summary:\n" ++ stripStr raw), 1)
        | .error _ => (.generationFailed, 1)

/-- One external event: an ingested message or a `/summarize` trigger. -/
inductive Event where
  | append (cid : Int) (m : Msg)
  | trigger (cid : Int) (oracle : String → Except String String)

/-- One dispatch step: `store_message` mutates the store, `summarize` only
reads it (the handler never assigns to `message_history`). -/
def step (s : Store) : Event → Store × Option (SummaryOutcome × Nat)
  | .append cid m => (storeMessage s cid m, none)
  | .trigger cid oracle => (s, some (summarize s cid oracle))

/-- The spec's wording of the prompt build: each message rendered as
`"[@{author}] {text}"`, concatenated in order with single-space
separators. -/
def renderSpec : List Msg → String
  | [] => ""
  | [m] => renderMsg m
  | m :: r :: rest => renderMsg m ++ " " ++ renderSpec (r :: rest)

/-- The empty store (process start). -/
def emptyStore : Store := fun _ => none

/-- Fold a sequence of appends to one conversation over a store. -/
def appendAll (s : Store) (cid : Int) (msgs : List Msg) : Store :=
  msgs.foldl (fun st m => storeMessage st cid m) s

/-- Spec §4.1's two-step wording of eviction: first drop all messages older
than `latest − RETENTION_WINDOW`, then, if the remaining count exceeds
`MAX_RETAINED`, drop from the head until exactly `MAX_RETAINED` remain. -/
def evictSpec (l : List Msg) (latest : Int) : List Msg :=
  let kept := l.filter (fun x => latest - RETENTION_WINDOW ≤ x.timestamp)
  if MAX_RETAINED < kept.length then kept.drop (kept.length - MAX_RETAINED)
  else kept

/-- A list of 101 messages with timestamps 0..100 seconds (all inside one window). -/
def msgs101 : List Msg :=
  (List.range 101).map (fun i => Msg.mk "m" (i : Int) "u")

/-- C1 (counterexample): the claim's bound uses the *maximum* timestamp
appended so far, and fails when a later append carries an older timestamp.
Appending a message with timestamp 10000 and then one with timestamp 0, the
second eviction's cutoff is `0 − 3600`, so the timestamp-0 message is
retained although `0 < 10000 − 3600`. -/
theorem storeMessage_max_timestamp_counterexample :
    ¬ (∀ x ∈ (((storeMessage
          (storeMessage emptyStore 1 ⟨"first message text", 10000, "a"⟩)
          1 ⟨"second message txt", 0, "b"⟩) 1).getD []),
        (10000 : Int) - RETENTION_WINDOW ≤ x.timestamp) := by
  decide

/-- C1 (amended): after each append of a message with non-empty text, the
retained sequence has length ≤ `MAX_RETAINED` and every retained element's
timestamp ≥ (the just-appended message's timestamp − `RETENTION_WINDOW`). -/
theorem storeMessage_retention_invariant
    (s : Store) (cid : Int) (m : Msg) (l : List Msg)
    (hm : m.text ≠ "") (hl : storeMessage s cid m cid = some l) :
    l.length ≤ MAX_RETAINED ∧
      ∀ x ∈ l, m.timestamp - RETENTION_WINDOW ≤ x.timestamp := by
  simp only [storeMessage, if_neg hm, if_pos rfl] at hl
  cases hl
  constructor
  · simp only [takeLast, List.length_drop]
    omega
  · intro x hx
    have hx' := List.mem_of_mem_drop hx
    have := List.of_mem_filter hx'
    simpa using this

/-- C1 witness: the invariant instantiated at one concrete append. -/
theorem storeMessage_retention_invariant_witness :
    (Msg.mk "hi" 0 "u").text ≠ "" ∧
      storeMessage emptyStore 1 (Msg.mk "hi" 0 "u") 1 =
        some [Msg.mk "hi" 0 "u"] ∧
      ([Msg.mk "hi" 0 "u"].length ≤ MAX_RETAINED ∧
        ∀ x ∈ [Msg.mk "hi" 0 "u"],
          (0 : Int) - RETENTION_WINDOW ≤ x.timestamp) :=
  ⟨by decide, by decide,
    storeMessage_retention_invariant emptyStore 1 (Msg.mk "hi" 0 "u")
      [Msg.mk "hi" 0 "u"] (by decide) (by decide)⟩

/-- The Python slice `[-100:]` agrees with the spec's conditional wording:
drop from the head only when the count exceeds the cap. -/
theorem takeLast_eq_capSpec (kept : List Msg) :
    takeLast MAX_RETAINED kept =
      if MAX_RETAINED < kept.length then kept.drop (kept.length - MAX_RETAINED)
      else kept := by
  unfold takeLast
  split
  · rfl
  · rename_i h
    rw [Nat.sub_eq_zero_of_le (Nat.le_of_not_lt h), List.drop_zero]

set_option maxRecDepth 4000

/-- C2: eviction is the spec's two steps in order (time filter first, then
head-capping to `MAX_RETAINED`), and appending 101 in-window messages to one
conversation retains exactly 100 whose earliest element is the 2nd appended
message. -/
theorem storeMessage_evict_two_step_and_101 :
    (∀ (s : Store) (cid : Int) (m : Msg), m.text ≠ "" →
      storeMessage s cid m cid =
        some (evictSpec ((s cid).getD [] ++ [m]) m.timestamp)) ∧
    appendAll emptyStore 7 msgs101 7 = some (msgs101.drop 1) ∧
    (msgs101.drop 1).length = 100 ∧
    (msgs101.drop 1).head? = some (Msg.mk "m" 1 "u") := by
  refine ⟨?_, ?_⟩
  · intro s cid m hm
    simp only [storeMessage, if_neg hm, evictSpec]
    rw [if_pos trivial, takeLast_eq_capSpec]
  · decide

/-- C2 witness: the two-step description instantiated at one concrete
append. -/
theorem storeMessage_evict_two_step_and_101_witness :
    (Msg.mk "hi" 0 "u").text ≠ "" ∧
      storeMessage emptyStore 1 (Msg.mk "hi" 0 "u") 1 =
        some (evictSpec ((emptyStore 1).getD [] ++ [Msg.mk "hi" 0 "u"]) 0) :=
  ⟨by decide,
    storeMessage_evict_two_step_and_101.1 emptyStore 1 (Msg.mk "hi" 0 "u")
      (by decide)⟩

/-- A store holding one timestamp-0 message for chat 1: the state after
`store_message` of `"hello everyone today"` from `alice` at time 0. -/
def agedStore : Store :=
  storeMessage emptyStore 1 (Msg.mk "hello everyone today" 0 "alice")

/-- C3 (counterexample): the stored message has timestamp 0, hence is aged
out of the one-hour window at every later wall-clock instant; yet a trigger
still invokes the oracle and summarizes it, because `summarize` reads all
stored messages and never re-applies the window.  The outcome is not
`EmptyAfterFilter`. -/
theorem summarize_aged_out_counterexample :
    summarize agedStore 1 (fun _ => .ok "sum") =
        (.summarized "Summary:\nsum", 1) ∧
      (SummaryOutcome.summarized "Summary:\nsum", 1) ≠
        (SummaryOutcome.emptyAfterFilter, 0) := by
  constructor
  · decide
  · decide

/-- C3 (amended): a trigger on a conversation-id the store has never seen
yields `NoHistory`, and a trigger on a known id whose retained sequence is
empty yields `EmptyAfterFilter`; in both cases the oracle is invoked zero
times. -/
theorem summarize_empty_cases (cid : Int)
    (oracle : String → Except String String) :
    summarize emptyStore cid oracle = (.noHistory, 0) ∧
      summarize (fun c => if c = cid then some [] else none) cid oracle =
        (.emptyAfterFilter, 0) := by
  constructor
  · rfl
  · simp [summarize]

/-- C5: when the rendered prompt body of a (non-empty) retained sequence is
shorter than `MIN_TEXT_LENGTH`, the trigger yields `InsufficientContent` and
the oracle is invoked zero times. -/
theorem insufficient_content_gate
    (s : Store) (cid : Int) (msgs : List Msg)
    (oracle : String → Except String String)
    (h1 : s cid = some msgs) (h2 : msgs ≠ [])
    (h3 : (buildPrompt msgs).length < MIN_TEXT_LENGTH) :
    summarize s cid oracle = (.insufficientContent, 0) := by
  simp [summarize, h1, h2, h3]

/-- C5 witness: one message whose rendering `"[@u] hi"` has length 7. -/
theorem insufficient_content_gate_witness :
    agedStore 2 = none ∧
      (fun c => if c = 2 then some [Msg.mk "hi" 0 "u"] else agedStore c) 2 =
        some [Msg.mk "hi" 0 "u"] ∧
      [Msg.mk "hi" 0 "u"] ≠ [] ∧
      (buildPrompt [Msg.mk "hi" 0 "u"]).length < MIN_TEXT_LENGTH ∧
      summarize (fun c => if c = 2 then some [Msg.mk "hi" 0 "u"] else agedStore c)
          2 (fun _ => .ok "sum") = (.insufficientContent, 0) :=
  ⟨by decide, by decide, by decide, by decide,
    insufficient_content_gate _ 2 [Msg.mk "hi" 0 "u"] (fun _ => .ok "sum")
      (by decide) (by decide) (by decide)⟩

/-- Success path of `summarize` (lines 88–105): reaching the oracle with a
long-enough prompt and getting `.ok t` yields the summarized outcome with
the stripped text after the `"Summary:\n"` prefix, with one oracle call. -/
theorem summarize_ok_helper
    (s : Store) (cid : Int) (msgs : List Msg)
    (oracle : String → Except String String) (t : String)
    (h1 : s cid = some msgs) (h2 : msgs ≠ [])
    (h3 : ¬ (buildPrompt msgs).length < MIN_TEXT_LENGTH)
    (h4 : oracle (buildPrompt msgs) = .ok t) :
    summarize s cid oracle = (.summarized ("Summary:\n" ++ stripStr t), 1) := by
  simp [summarize, h1, h2, h3, h4]

/-- C4: a failing generation call is caught and mapped to `GenerationFailed`
(one oracle call, no escaping fault — both `Except` branches of the oracle
produce an outcome), the store is left unchanged by the trigger step, and a
subsequent trigger on the same store with a working oracle succeeds. -/
theorem generation_failure_isolated
    (s : Store) (cid : Int) (msgs : List Msg)
    (bad good : String → Except String String) (e t : String)
    (h1 : s cid = some msgs) (h2 : msgs ≠ [])
    (h3 : ¬ (buildPrompt msgs).length < MIN_TEXT_LENGTH)
    (hbad : bad (buildPrompt msgs) = .error e)
    (hgood : good (buildPrompt msgs) = .ok t) :
    step s (.trigger cid bad) = (s, some (.generationFailed, 1)) ∧
      summarize (step s (.trigger cid bad)).1 cid good =
        (.summarized ("Summary:\n" ++ stripStr t), 1) := by
  have hfail : summarize s cid bad = (.generationFailed, 1) := by
    simp [summarize, h1, h2, h3, hbad]
  exact ⟨by simp [step, hfail],
    summarize_ok_helper s cid msgs good t h1 h2 h3 hgood⟩

/-- C4 witness: a failing then a working oracle on one concrete store. -/
theorem generation_failure_isolated_witness :
    agedStore 1 = some [Msg.mk "hello everyone today" 0 "alice"] ∧
      [Msg.mk "hello everyone today" 0 "alice"] ≠ [] ∧
      ¬ (buildPrompt [Msg.mk "hello everyone today" 0 "alice"]).length <
          MIN_TEXT_LENGTH ∧
      (step agedStore (.trigger 1 (fun _ => .error "boom")) =
          (agedStore, some (.generationFailed, 1)) ∧
        summarize (step agedStore (.trigger 1 (fun _ => .error "boom"))).1 1
            (fun _ => .ok "A summary.") =
          (.summarized ("Summary:\n" ++ stripStr "A summary."), 1)) :=
  ⟨by decide, by decide, by decide,
    generation_failure_isolated agedStore 1
      [Msg.mk "hello everyone today" 0 "alice"]
      (fun _ => .error "boom") (fun _ => .ok "A summary.") "boom" "A summary."
      (by decide) (by decide) (by decide) rfl rfl⟩

/-- C6 (counterexample): the delivered text is not the returned text
verbatim: a returned `" hi "` is stripped to `"hi"` before the
`"Summary:"` prefix is attached. -/
theorem summary_not_verbatim_counterexample :
    summarize agedStore 1 (fun _ => .ok " hi ") =
        (.summarized "Summary:\nhi", 1) ∧
      "Summary:\nhi" ≠ "Summary:\n" ++ " hi " := by
  constructor
  · decide
  · decide

/-- C6 (amended): on a successful generation call the outcome delivers the
oracle's returned text with leading/trailing whitespace stripped, prefixed
by `"Summary:"` and a newline. -/
theorem summarize_success_strip
    (s : Store) (cid : Int) (msgs : List Msg)
    (oracle : String → Except String String) (t : String)
    (h1 : s cid = some msgs) (h2 : msgs ≠ [])
    (h3 : ¬ (buildPrompt msgs).length < MIN_TEXT_LENGTH)
    (h4 : oracle (buildPrompt msgs) = .ok t) :
    summarize s cid oracle = (.summarized ("Summary:\n" ++ stripStr t), 1) :=
  summarize_ok_helper s cid msgs oracle t h1 h2 h3 h4

/-- C6 witness: the success theorem at one concrete store and oracle. -/
theorem summarize_success_strip_witness :
    agedStore 1 = some [Msg.mk "hello everyone today" 0 "alice"] ∧
      [Msg.mk "hello everyone today" 0 "alice"] ≠ [] ∧
      ¬ (buildPrompt [Msg.mk "hello everyone today" 0 "alice"]).length <
          MIN_TEXT_LENGTH ∧
      summarize agedStore 1 (fun _ => .ok "Lunch at noon.") =
        (.summarized ("Summary:\n" ++ stripStr "Lunch at noon."), 1) :=
  ⟨by decide, by decide, by decide,
    summarize_success_strip agedStore 1
      [Msg.mk "hello everyone today" 0 "alice"]
      (fun _ => .ok "Lunch at noon.") "Lunch at noon."
      (by decide) (by decide) (by decide) rfl⟩

/-- Unfolding of `String.intercalate`'s accumulator loop. -/
theorem intercalate_go_eq (sep : String) :
    ∀ (as : List String) (acc : String),
      String.intercalate.go acc sep as =
        acc ++ (as.foldr (fun a r => sep ++ a ++ r) "") := by
  intro as
  induction as with
  | nil => intro acc; simp [String.intercalate.go]
  | cons a t ih =>
    intro acc
    rw [String.intercalate.go, ih]
    simp [String.append_assoc]

/-- The folded separator form agrees with the spec's head-separated
recursion. -/
theorem renderSpec_cons_eq : ∀ (rest : List Msg) (m : Msg),
    renderMsg m ++
        (List.foldr (fun a r => " " ++ a ++ r) "" (rest.map renderMsg)) =
      renderSpec (m :: rest) := by
  intro rest
  induction rest with
  | nil => intro m; simp [renderSpec]
  | cons r t ih =>
    intro m
    rw [renderSpec, ← ih r]
    simp [String.append_assoc]

/-- C7: the code's prompt body (`" ".join` of the per-message renderings,
line 74) equals the spec's description — each message rendered as
`"[@{author}] {text}"`, concatenated in retained order with single-space
separators.  `buildPrompt` is a pure function of the sequence, so building
the prompt does not mutate the retained sequence. -/
theorem buildPrompt_eq_renderSpec (msgs : List Msg) :
    buildPrompt msgs = renderSpec msgs := by
  cases msgs with
  | nil => rfl
  | cons m rest =>
    rw [buildPrompt]
    simp only [List.map_cons, String.intercalate, intercalate_go_eq]
    exact renderSpec_cons_eq rest m

/-- C8: an append to conversation `a` leaves every other conversation `b`
exactly unchanged — same key membership, same retained sequence. -/
theorem storeMessage_frame
    (s : Store) (a : Int) (m : Msg) (b : Int) (h : b ≠ a) :
    storeMessage s a m b = s b := by
  unfold storeMessage
  split
  · rfl
  · simp [if_neg h]

/-- C8 witness: the frame property at two concrete conversations. -/
theorem storeMessage_frame_witness :
    (2 : Int) ≠ 1 ∧
      storeMessage emptyStore 1 (Msg.mk "hi" 0 "u") 2 = emptyStore 2 :=
  ⟨by decide, storeMessage_frame emptyStore 1 (Msg.mk "hi" 0 "u") 2 (by decide)⟩

/-- The Python slice `[-100:]` of a non-empty list is non-empty. -/
theorem takeLast_ne_nil (l : List Msg) (hl : l ≠ []) :
    takeLast MAX_RETAINED l ≠ [] := by
  unfold takeLast
  intro hnil
  have hlen := congrArg List.length hnil
  simp only [List.length_drop, List.length_nil] at hlen
  have : 0 < l.length := List.length_pos.mpr hl
  unfold MAX_RETAINED at hlen
  omega

/-- The slice `[-100:]` keeps the tail, so it preserves the last element. -/
theorem takeLast_getLast? (l : List Msg) (hl : takeLast MAX_RETAINED l ≠ []) :
    (takeLast MAX_RETAINED l).getLast? = l.getLast? := by
  unfold takeLast at hl ⊢
  conv_rhs => rw [← List.take_append_drop (l.length - MAX_RETAINED) l]
  rw [List.getLast?_append_of_ne_nil _ hl]

/-- C10: after an append (of a message with non-empty text) the
conversation's retained sequence is non-empty and ends with the
just-appended message, which survives both eviction steps; and if no key of
the store maps to an empty sequence before the append, none does after, so
a key never maps to an empty sequence in any reachable store. -/
theorem storeMessage_nonempty
    (s : Store) (cid : Int) (m : Msg)
    (hm : m.text ≠ "") (hs : ∀ c l, s c = some l → l ≠ []) :
    (∃ l, storeMessage s cid m cid = some l ∧ l ≠ [] ∧
        l.getLast? = some m) ∧
      ∀ c l, storeMessage s cid m c = some l → l ≠ [] := by
  have hp : decide (m.timestamp - RETENTION_WINDOW ≤ m.timestamp) = true := by
    simp only [decide_eq_true_eq]
    unfold RETENTION_WINDOW
    omega
  have hself : ∃ l, storeMessage s cid m cid = some l ∧ l ≠ [] ∧
      l.getLast? = some m := by
    simp only [storeMessage, if_neg hm]
    rw [if_pos trivial]
    have hmem : m ∈ (((s cid).getD [] ++ [m]).filter
        (fun x => decide (m.timestamp - RETENTION_WINDOW ≤ x.timestamp))) :=
      List.mem_filter.mpr ⟨by simp, hp⟩
    have hne := takeLast_ne_nil _ (List.ne_nil_of_mem hmem)
    refine ⟨_, rfl, hne, ?_⟩
    rw [takeLast_getLast? _ hne, List.filter_append]
    simp only [List.filter_cons, hp, List.filter_nil, if_true]
    exact List.getLast?_concat _
  refine ⟨hself, ?_⟩
  intro c l hcl
  by_cases hc : c = cid
  · subst hc
    obtain ⟨l', hl', hne, _⟩ := hself
    rw [hl'] at hcl
    cases hcl
    exact hne
  · have : storeMessage s cid m c = s c := by
      unfold storeMessage
      split
      · rfl
      · simp [if_neg hc]
    rw [this] at hcl
    exact hs c l hcl

/-- C10 witness: the append of one concrete message to the empty store. -/
theorem storeMessage_nonempty_witness :
    (Msg.mk "hi" 0 "u").text ≠ "" ∧
      ((∃ l, storeMessage emptyStore 1 (Msg.mk "hi" 0 "u") 1 = some l ∧
          l ≠ [] ∧ l.getLast? = some (Msg.mk "hi" 0 "u")) ∧
        ∀ c l, storeMessage emptyStore 1 (Msg.mk "hi" 0 "u") c = some l →
          l ≠ []) :=
  ⟨by decide,
    storeMessage_nonempty emptyStore 1 (Msg.mk "hi" 0 "u") (by decide)
      (fun _ _ h => nomatch h)⟩
